import Mathlib

/-!
Verification of the appointment slot allocation and lifecycle subsystem of a
medical appointment booking platform (Node.js/Express/Mongoose backend).

The embedding models the route handlers in `backend/server.js` together with
the Mongoose schemas (`backend/models/Appointment.js`,
`backend/models/DoctorSchedule.js`).  The MongoDB store is a record of lists;
Mongoose `save` is modelled including its document validation (required string
fields must be non-empty, `status` must be in the schema enum) and the unique
index on `id` (the only unique index either schema declares).  Every operation
takes the store and returns the (possibly unchanged) store together with an
`Except` result, so failure frame conditions are statable.
-/

namespace MedApp

/-- The authenticated caller as decoded from the JWT by `authenticateToken`:
`req.user.sub` (id) and `req.user.role`. -/
structure Principal where
  id : String
  role : String
deriving Repr, DecidableEq

/-- The slice of a `User` document relevant to the reservation core:
`server.js` resolves doctors via `User.findOne({ id, role: 'doctor' })`. -/
structure User where
  id : String
  role : String
deriving Repr, DecidableEq

/-- `timeSlotSchema` of `models/DoctorSchedule.js`. -/
structure TimeSlot where
  start_time : String
  end_time : String
  is_available : Bool
deriving Repr, DecidableEq

/-- `doctorScheduleSchema` of `models/DoctorSchedule.js` (sans `created_at`). -/
structure DoctorSchedule where
  id : String
  doctor_id : String
  date : String
  time_slots : List TimeSlot
deriving Repr, DecidableEq

/-- `appointmentSchema` of `models/Appointment.js` (sans `created_at`).
`status` is a `String` validated against the schema enum at save time,
exactly as Mongoose does. -/
structure Appointment where
  id : String
  patient_id : String
  doctor_id : String
  appointment_date : String
  appointment_time : String
  reason : String
  notes : Option String
  status : String
  doctor_notes : Option String
deriving Repr, DecidableEq

/-- The persistent store: the three collections the reservation core touches. -/
structure DB where
  users : List User
  schedules : List DoctorSchedule
  appointments : List Appointment
deriving Repr, DecidableEq

/-- Failure outcomes of the handlers, by the taxonomy the responses encode:
404 bodies are `notFound`, the 400 duplicate/occupied-slot bodies are
`conflict`, 403 bodies are `forbidden`, a Mongoose document validation
rejection is `validationError`, a unique-index rejection is `duplicateKey`. -/
inductive ApiError where
  | notFound (detail : String)
  | conflict (detail : String)
  | forbidden (detail : String)
  | validationError (detail : String)
  | duplicateKey (detail : String)
deriving Repr, DecidableEq

/-- The `status` enum of `appointmentSchema`. -/
def statusEnum : List String := ["pending", "confirmed", "completed", "cancelled"]

/-- Mongoose `required: true` on the five required string paths of
`appointmentSchema` (an empty string fails the String required validator). -/
def requiredOk (a : Appointment) : Bool :=
  a.id != "" && a.patient_id != "" && a.doctor_id != "" &&
  a.appointment_date != "" && a.appointment_time != "" && a.reason != ""

/-- Full document validation run by Mongoose on every `save`. -/
def appointmentValid (a : Appointment) : Bool :=
  requiredOk a && statusEnum.contains a.status

/-- `save()` on a new Appointment document: validation, then the insert,
which only the unique index on `id` can reject. -/
def saveNewAppointment (a : Appointment) (db : DB) : Except ApiError DB :=
  if !appointmentValid a then
    .error (.validationError "Appointment validation failed")
  else if db.appointments.any (fun x => x.id == a.id) then
    .error (.duplicateKey "duplicate key error on id")
  else
    .ok { db with appointments := db.appointments ++ [a] }

/-- Writing back a loaded Appointment document replaces the stored document
with the same `id`. -/
def replaceById (l : List Appointment) (a : Appointment) : List Appointment :=
  l.map (fun x => if x.id == a.id then a else x)

/-- `save()` on a loaded-and-mutated Appointment document: full revalidation,
then the write-back. -/
def saveUpdatedAppointment (a : Appointment) (db : DB) : Except ApiError DB :=
  if !appointmentValid a then
    .error (.validationError "Appointment validation failed")
  else
    .ok { db with appointments := replaceById db.appointments a }

/-- `User.findOne({ id: doctor_id, role: 'doctor' })` (server.js:374). -/
def findDoctorUser (db : DB) (doctorId : String) : Option User :=
  db.users.find? (fun u => u.id == doctorId && u.role == "doctor")

/-- `DoctorSchedule.findOne({ doctor_id, date })` (server.js:280,337,380). -/
def findSchedule (db : DB) (doctorId date : String) : Option DoctorSchedule :=
  db.schedules.find? (fun s => s.doctor_id == doctorId && s.date == date)

/-- `status: { $in: ['pending', 'confirmed'] }`. -/
def isActive (a : Appointment) : Bool :=
  a.status == "pending" || a.status == "confirmed"

/-- The appointment occupies the slot `(doctorId, date, time)` while active. -/
def occupies (a : Appointment) (doctorId date time : String) : Bool :=
  a.doctor_id == doctorId && a.appointment_date == date &&
  a.appointment_time == time && isActive a

/-- `Appointment.findOne({ doctor_id, appointment_date, appointment_time,
status: { $in: ['pending', 'confirmed'] } })` (server.js:398). -/
def findActiveAt (db : DB) (doctorId date time : String) : Option Appointment :=
  db.appointments.find? (fun a => occupies a doctorId date time)

/-- `Appointment.findOne({ id: req.params.appointment_id })` (server.js:479,519). -/
def findAppointment (db : DB) (aid : String) : Option Appointment :=
  db.appointments.find? (fun a => a.id == aid)

/-- Body of `POST /api/appointments` (server.js:371). -/
structure CreateRequest where
  doctor_id : String
  appointment_date : String
  appointment_time : String
  reason : String
  notes : Option String
deriving Repr, DecidableEq

/-- `schedule.time_slots.some(slot => slot.start_time === appointment_time &&
slot.is_available)` (server.js:389). -/
def slotAvailable (sched : DoctorSchedule) (time : String) : Bool :=
  sched.time_slots.any (fun slot => slot.start_time == time && slot.is_available)

/-- JS truthiness of `notes || null` and `if (doctor_notes)`: `null`,
`undefined` and the empty string are all falsy. -/
def orNull (o : Option String) : Option String :=
  match o with
  | some s => if s == "" then none else some s
  | none => none

/-- The read-only check phase of `POST /api/appointments` (server.js:369-407):
the `requirePatient` middleware, doctor resolution, schedule lookup, slot
availability and the occupied-slot read.  `none` means all checks passed. -/
def createCheck (p : Principal) (r : CreateRequest) (db : DB) : Option ApiError :=
  if p.role != "patient" then
    some (.forbidden "Not authorized. Patient access required.")
  else
    match findDoctorUser db r.doctor_id with
    | none => some (.notFound "Doctor not found")
    | some _ =>
      match findSchedule db r.doctor_id r.appointment_date with
      | none => some (.conflict "Doctor not available on this date")
      | some sched =>
        if !slotAvailable sched r.appointment_time then
          some (.conflict "Time slot not available")
        else
          match findActiveAt db r.doctor_id r.appointment_date r.appointment_time with
          | some _ => some (.conflict "Time slot already booked")
          | none => none

/-- The document built at server.js:410 (`status` defaults to `pending`). -/
def newAppointment (newId : String) (p : Principal) (r : CreateRequest) : Appointment :=
  { id := newId, patient_id := p.id, doctor_id := r.doctor_id,
    appointment_date := r.appointment_date, appointment_time := r.appointment_time,
    reason := r.reason, notes := orNull r.notes, status := "pending",
    doctor_notes := none }

/-- The write phase of `POST /api/appointments` (server.js:409-420): build the
document and `save()` it.  Note that no slot check is repeated here. -/
def createInsert (newId : String) (p : Principal) (r : CreateRequest) (db : DB) :
    Except ApiError Appointment × DB :=
  match saveNewAppointment (newAppointment newId p r) db with
  | .error e => (.error e, db)
  | .ok db2 => (.ok (newAppointment newId p r), db2)

/-- `POST /api/appointments` run to completion without interleaving:
check phase then write phase. -/
def createAppointment (newId : String) (p : Principal) (r : CreateRequest) (db : DB) :
    Except ApiError Appointment × DB :=
  match createCheck p r db with
  | some e => (.error e, db)
  | none => createInsert newId p r db

/-- Body of `PATCH /api/appointments/:appointment_id` (server.js:477). -/
structure UpdateRequest where
  status : String
  doctor_notes : Option String
deriving Repr, DecidableEq

/-- The document mutation at server.js:499-502: `appointment.status = status`
unconditionally, and `appointment.doctor_notes = doctor_notes` only when
`doctor_notes` is truthy (neither absent nor the empty string). -/
def applyUpdate (a : Appointment) (r : UpdateRequest) : Appointment :=
  { a with
    status := r.status,
    doctor_notes := match orNull r.doctor_notes with
      | some s => some s
      | none => a.doctor_notes }

/-- `PATCH /api/appointments/:appointment_id` (server.js:475-514): load,
ownership checks (doctors must own; patients must own and may only request
`cancelled`; any other role is not checked at all), then the unconditional
`appointment.status = status` and `save()`.  There is no transition-table
validation anywhere in the handler. -/
def updateAppointment (p : Principal) (aid : String) (r : UpdateRequest) (db : DB) :
    Except ApiError Appointment × DB :=
  match findAppointment db aid with
  | none => (.error (.notFound "Appointment not found"), db)
  | some appointment =>
    if p.role == "doctor" && appointment.doctor_id != p.id then
      (.error (.forbidden "Not authorized"), db)
    else if p.role == "patient" && appointment.patient_id != p.id then
      (.error (.forbidden "Not authorized"), db)
    else if p.role == "patient" && r.status != "cancelled" then
      (.error (.forbidden "Patients can only cancel appointments"), db)
    else
      match saveUpdatedAppointment (applyUpdate appointment r) db with
      | .error e => (.error e, db)
      | .ok db2 => (.ok (applyUpdate appointment r), db2)

/-- `DELETE /api/appointments/:appointment_id` (server.js:517-536): the
patient-only cancel shortcut. -/
def deleteAppointment (p : Principal) (aid : String) (db : DB) :
    Except ApiError Unit × DB :=
  if p.role != "patient" then
    (.error (.forbidden "Not authorized. Patient access required."), db)
  else
    match findAppointment db aid with
    | none => (.error (.notFound "Appointment not found"), db)
    | some appointment =>
      if appointment.patient_id != p.id then
        (.error (.forbidden "Not authorized"), db)
      else
        match saveUpdatedAppointment { appointment with status := "cancelled" } db with
        | .error e => (.error e, db)
        | .ok db2 => (.ok (), db2)

/-- Body of `POST /api/doctors/schedule` (server.js:277). -/
structure ScheduleRequest where
  date : String
  time_slots : List TimeSlot
deriving Repr, DecidableEq

/-- `save()` on a new DoctorSchedule document: required paths, then the
unique index on `id`. -/
def saveNewSchedule (s : DoctorSchedule) (db : DB) : Except ApiError DB :=
  if s.id == "" || s.doctor_id == "" || s.date == "" then
    .error (.validationError "DoctorSchedule validation failed")
  else if db.schedules.any (fun x => x.id == s.id) then
    .error (.duplicateKey "duplicate key error on id")
  else
    .ok { db with schedules := db.schedules ++ [s] }

/-- The document built at server.js:289 (`doctor_id` is the caller). -/
def newSchedule (newId : String) (p : Principal) (r : ScheduleRequest) : DoctorSchedule :=
  { id := newId, doctor_id := p.id, date := r.date, time_slots := r.time_slots }

/-- `POST /api/doctors/schedule` (server.js:275-307): `requireDoctor`, the
duplicate-date check keyed on `(req.user.sub, date)`, then the insert. -/
def createSchedule (newId : String) (p : Principal) (r : ScheduleRequest) (db : DB) :
    Except ApiError DoctorSchedule × DB :=
  if p.role != "doctor" then
    (.error (.forbidden "Not authorized. Doctor access required."), db)
  else
    match findSchedule db p.id r.date with
    | some _ => (.error (.conflict "Schedule for this date already exists"), db)
    | none =>
      match saveNewSchedule (newSchedule newId p r) db with
      | .error e => (.error e, db)
      | .ok db2 => (.ok (newSchedule newId p r), db2)

/-- Response shape of `GET /api/doctors/:doctor_id/available-slots`. -/
structure SlotsResponse where
  date : String
  slots : List TimeSlot
deriving Repr, DecidableEq

/-- `bookedAppointments.map(a => a.appointment_time)` over the active
appointments of `(doctorId, date)` (server.js:347-353). -/
def bookedTimes (db : DB) (doctorId date : String) : List String :=
  (db.appointments.filter (fun a =>
    a.doctor_id == doctorId && a.appointment_date == date && isActive a)).map
    (fun a => a.appointment_time)

/-- `GET /api/doctors/:doctor_id/available-slots` (server.js:333-365):
an absent schedule yields `{ date, slots: [] }`; otherwise the published
slots are filtered by `is_available` and non-membership in the booked set. -/
def availableSlots (db : DB) (doctorId date : String) : SlotsResponse :=
  match findSchedule db doctorId date with
  | none => { date := date, slots := [] }
  | some schedule =>
    { date := date,
      slots := schedule.time_slots.filter (fun slot =>
        slot.is_available && !((bookedTimes db doctorId date).contains slot.start_time)) }

/-- Number of active appointments occupying the slot `(doctorId, date, time)`. -/
def activeCountAt (db : DB) (doctorId date time : String) : Nat :=
  db.appointments.countP (fun a => occupies a doctorId date time)

/-- The exclusivity invariant of spec section 3: at most one active
appointment per `(doctorId, date, time)`. -/
def exclusivity (db : DB) : Prop :=
  ∀ doctorId date time : String, activeCountAt db doctorId date time ≤ 1

/-! ### Concrete fixtures, used by the scenario theorems below -/

def exUser : User := { id := "doc1", role := "doctor" }

def exSlot : TimeSlot := { start_time := "09:00", end_time := "09:30", is_available := true }

def exSched : DoctorSchedule :=
  { id := "sch1", doctor_id := "doc1", date := "2025-06-01", time_slots := [exSlot] }

def exDb0 : DB := { users := [exUser], schedules := [exSched], appointments := [] }

def exPatient : Principal := { id := "pat1", role := "patient" }

def exPatient2 : Principal := { id := "pat2", role := "patient" }

def exDoctor : Principal := { id := "doc1", role := "doctor" }

def exAdmin : Principal := { id := "adm1", role := "admin" }

def exReq : CreateRequest :=
  { doctor_id := "doc1", appointment_date := "2025-06-01", appointment_time := "09:00",
    reason := "checkup", notes := none }

def exReqEmptyReason : CreateRequest := { exReq with reason := "" }

/-- Store after a patient books the 09:00 slot. -/
def exDb1 : DB := (createAppointment "a1" exPatient exReq exDb0).2

/-- ... after the patient cancels that appointment via the DELETE route. -/
def exDb2 : DB := (deleteAppointment exPatient "a1" exDb1).2

/-- ... after the patient books the then-free slot again under a fresh id. -/
def exDb3 : DB := (createAppointment "a2" exPatient exReq exDb2).2

/-- ... after the doctor flips the cancelled appointment back to confirmed. -/
def exDb4 : DB :=
  (updateAppointment exDoctor "a1" { status := "confirmed", doctor_notes := none } exDb3).2

/-- Interleaved-run stores: both creates passed their checks on `exDb0`
before either insert ran. -/
def raceDb1 : DB := (createInsert "a1" exPatient exReq exDb0).2

def raceDb2 : DB := (createInsert "a2" exPatient2 exReq raceDb1).2

/-- A store holding one confirmed appointment of `doc1` and `pat1`. -/
def exConfirmedApt : Appointment :=
  { id := "b1", patient_id := "pat1", doctor_id := "doc1",
    appointment_date := "2025-06-01", appointment_time := "09:00",
    reason := "checkup", notes := none, status := "confirmed", doctor_notes := none }

def exDbConfirmed : DB :=
  { users := [exUser], schedules := [exSched], appointments := [exConfirmedApt] }

/-- A store holding one completed appointment of `doc1` and `pat1`. -/
def exCompletedApt : Appointment :=
  { exConfirmedApt with id := "c1", status := "completed", doctor_notes := some "done" }

def exDbCompleted : DB :=
  { users := [exUser], schedules := [exSched], appointments := [exCompletedApt] }

/-- Publish-twice fixtures. -/
def exSchedReq : ScheduleRequest := { date := "2025-06-01", time_slots := [exSlot] }

def pubDb0 : DB := { users := [exUser], schedules := [], appointments := [] }

def pubDb1 : DB := (createSchedule "sch1" exDoctor exSchedReq pubDb0).2

/-- Free-slot derivation fixtures: three published slots, 08:30 confirmed. -/
def c6Slot1 : TimeSlot := { start_time := "08:00", end_time := "08:30", is_available := true }

def c6Slot2 : TimeSlot := { start_time := "08:30", end_time := "09:00", is_available := true }

def c6Slot3 : TimeSlot := { start_time := "09:00", end_time := "09:30", is_available := true }

def c6Sched : DoctorSchedule :=
  { id := "sch6", doctor_id := "doc1", date := "2025-07-01",
    time_slots := [c6Slot1, c6Slot2, c6Slot3] }

def c6Apt : Appointment :=
  { id := "ap6", patient_id := "pat1", doctor_id := "doc1",
    appointment_date := "2025-07-01", appointment_time := "08:30",
    reason := "checkup", notes := none, status := "confirmed", doctor_notes := none }

def c6Db : DB := { users := [exUser], schedules := [c6Sched], appointments := [c6Apt] }

end MedApp

/-! ### Helper lemmas about the operations -/

namespace MedApp

/-- If the check phase of create passes, the caller is a patient, the doctor
resolves, a schedule with an available matching slot exists, and no active
appointment occupies the slot. -/
theorem createCheck_eq_none {p : Principal} {r : CreateRequest} {db : DB}
    (h : createCheck p r db = none) :
    p.role = "patient" ∧
    findDoctorUser db r.doctor_id ≠ none ∧
    (∃ sched, findSchedule db r.doctor_id r.appointment_date = some sched ∧
      slotAvailable sched r.appointment_time = true) ∧
    findActiveAt db r.doctor_id r.appointment_date r.appointment_time = none := by
  unfold createCheck at h
  split at h
  · exact absurd h (by simp)
  · rename_i hrole
    split at h
    · exact absurd h (by simp)
    · rename_i hdoc
      split at h
      · exact absurd h (by simp)
      · rename_i sched hsched
        split at h
        · exact absurd h (by simp)
        · rename_i hslot
          split at h
          · exact absurd h (by simp)
          · rename_i hact
            refine ⟨by simpa using hrole, by simp [hdoc],
              ⟨sched, hsched, by simpa using hslot⟩, hact⟩

/-- A successful insert-save passed validation, had a fresh id, and appended
the document. -/
theorem saveNewAppointment_ok {a : Appointment} {db db2 : DB}
    (h : saveNewAppointment a db = .ok db2) :
    appointmentValid a = true ∧
    db.appointments.any (fun x => x.id == a.id) = false ∧
    db2 = { db with appointments := db.appointments ++ [a] } := by
  unfold saveNewAppointment at h
  split at h
  · exact absurd h (by simp)
  · rename_i hvalid
    split at h
    · exact absurd h (by simp)
    · rename_i hdup
      refine ⟨by simpa using hvalid, by simpa using hdup,
        by injection h with h2; exact h2.symm⟩

/-- A successful create passed its checks and appended the new document. -/
theorem createAppointment_ok {newId : String} {p : Principal} {r : CreateRequest}
    {db : DB} {a : Appointment} {db2 : DB}
    (h : createAppointment newId p r db = (.ok a, db2)) :
    createCheck p r db = none ∧ a = newAppointment newId p r ∧
    db2 = { db with appointments := db.appointments ++ [a] } := by
  unfold createAppointment at h
  split at h
  · injection h with h1 h2; exact absurd h1 (by simp)
  · rename_i hchk
    unfold createInsert at h
    split at h
    · injection h with h1 h2; exact absurd h1 (by simp)
    · rename_i db3 hsave
      injection h with h1 h2
      injection h1 with h3
      subst h3 h2
      have := saveNewAppointment_ok hsave
      exact ⟨hchk, rfl, this.2.2⟩

/-- A successful update-save passed validation and replaced the document. -/
theorem saveUpdatedAppointment_ok {a : Appointment} {db db2 : DB}
    (h : saveUpdatedAppointment a db = .ok db2) :
    appointmentValid a = true ∧
    db2 = { db with appointments := replaceById db.appointments a } := by
  unfold saveUpdatedAppointment at h
  split at h
  · exact absurd h (by simp)
  · rename_i hvalid
    exact ⟨by simpa using hvalid, by injection h with h2; exact h2.symm⟩

theorem occupies_eq_true {a : Appointment} {d dt t : String} :
    occupies a d dt t = true ↔
      a.doctor_id = d ∧ a.appointment_date = dt ∧ a.appointment_time = t ∧
      isActive a = true := by
  simp [occupies, Bool.and_eq_true, and_assoc]

/-- Appending an appointment whose slot holds no active appointment yet
preserves exclusivity. -/
theorem exclusivity_append_new {db : DB} {a : Appointment}
    (hx : exclusivity db)
    (hact : findActiveAt db a.doctor_id a.appointment_date a.appointment_time = none) :
    exclusivity { db with appointments := db.appointments ++ [a] } := by
  intro d dt t
  unfold activeCountAt
  simp only [List.countP_append]
  by_cases hocc : occupies a d dt t = true
  · obtain ⟨hd, hdt, ht, _⟩ := occupies_eq_true.mp hocc
    subst hd; subst hdt; subst ht
    have h0 : db.appointments.countP
        (fun x => occupies x a.doctor_id a.appointment_date a.appointment_time) = 0 := by
      rw [List.countP_eq_zero]
      intro x hmem
      exact (List.find?_eq_none.mp hact) x hmem
    rw [h0]
    simp [List.countP_cons, hocc]
  · have h1 : List.countP (fun x => occupies x d dt t) [a] = 0 := by
      simp [List.countP_cons, hocc]
    rw [h1]
    simpa using hx d dt t

/-- Overwriting one document with an inactive one preserves exclusivity. -/
theorem exclusivity_replace_inactive {db : DB} {a : Appointment}
    (hx : exclusivity db) (hna : isActive a = false) :
    exclusivity { db with appointments := replaceById db.appointments a } := by
  intro d dt t
  unfold activeCountAt replaceById
  rw [List.countP_map]
  refine le_trans (List.countP_mono_left ?_) (hx d dt t)
  intro x _ hp
  simp only [Function.comp] at hp
  by_cases hid : (x.id == a.id) = true
  · rw [if_pos hid] at hp
    obtain ⟨_, _, _, hact⟩ := occupies_eq_true.mp hp
    rw [hna] at hact
    exact absurd hact (by simp)
  · rwa [if_neg hid] at hp

theorem createAppointment_preserves_exclusivity
    (newId : String) (p : Principal) (r : CreateRequest) (db : DB)
    (hx : exclusivity db) :
    exclusivity (createAppointment newId p r db).2 := by
  unfold createAppointment
  split
  · exact hx
  · rename_i hchk
    unfold createInsert
    split
    · exact hx
    · rename_i db2 hsave
      show exclusivity db2
      rw [(saveNewAppointment_ok hsave).2.2]
      exact exclusivity_append_new hx (createCheck_eq_none hchk).2.2.2

theorem deleteAppointment_preserves_exclusivity
    (p : Principal) (aid : String) (db : DB) (hx : exclusivity db) :
    exclusivity (deleteAppointment p aid db).2 := by
  unfold deleteAppointment
  split
  · exact hx
  · split
    · exact hx
    · rename_i appointment hfind
      split
      · exact hx
      · split
        · exact hx
        · rename_i db2 hsave
          show exclusivity db2
          rw [(saveUpdatedAppointment_ok hsave).2]
          exact exclusivity_replace_inactive hx (by simp [isActive])

theorem updateAppointment_deactivating_preserves_exclusivity
    (p : Principal) (aid : String) (r : UpdateRequest) (db : DB)
    (hx : exclusivity db)
    (hst : r.status = "cancelled" ∨ r.status = "completed") :
    exclusivity (updateAppointment p aid r db).2 := by
  unfold updateAppointment
  split
  · exact hx
  · rename_i appointment hfind
    split
    · exact hx
    · split
      · exact hx
      · split
        · exact hx
        · split
          · exact hx
          · rename_i db2 hsave
            show exclusivity db2
            rw [(saveUpdatedAppointment_ok hsave).2]
            refine exclusivity_replace_inactive hx ?_
            rcases hst with h | h <;> simp [applyUpdate, isActive, h]

/-- An update whose caller passes the ownership gates always succeeds: the
handler validates nothing else, so the requested status is written as is. -/
theorem updateAppointment_authorized_ok
    (db : DB) (p : Principal) (aid : String) (r : UpdateRequest) (a : Appointment)
    (hfind : findAppointment db aid = some a)
    (hreq : requiredOk a = true)
    (henum : statusEnum.contains r.status = true)
    (hdoc : p.role = "doctor" → a.doctor_id = p.id)
    (hpat : p.role = "patient" → a.patient_id = p.id ∧ r.status = "cancelled") :
    updateAppointment p aid r db =
      (.ok (applyUpdate a r),
       { db with appointments := replaceById db.appointments (applyUpdate a r) }) := by
  have g1 : (p.role == "doctor" && a.doctor_id != p.id) = false := by
    by_cases hr : p.role = "doctor"
    · simp [hr, hdoc hr]
    · simp [hr]
  have g2 : (p.role == "patient" && a.patient_id != p.id) = false := by
    by_cases hr : p.role = "patient"
    · simp [hr, (hpat hr).1]
    · simp [hr]
  have g3 : (p.role == "patient" && r.status != "cancelled") = false := by
    by_cases hr : p.role = "patient"
    · simp [hr, (hpat hr).2]
    · simp [hr]
  have hvalid : appointmentValid (applyUpdate a r) = true := by
    have henum2 : r.status ∈ statusEnum := by simpa using henum
    simp only [appointmentValid, requiredOk, applyUpdate] at hreq ⊢
    simp [hreq, henum2]
  unfold updateAppointment
  rw [hfind]
  simp only [g1, g2, g3, if_false]
  unfold saveUpdatedAppointment
  rw [hvalid]
  simp

/-- Membership in the booked-times list is occupancy by an active
appointment. -/
theorem bookedTimes_contains_eq (db : DB) (doctorId date t : String) :
    (bookedTimes db doctorId date).contains t =
      db.appointments.any (fun a => occupies a doctorId date t) := by
  rw [Bool.eq_iff_iff]
  simp only [bookedTimes, occupies, List.any_eq_true, List.elem_eq_mem, decide_eq_true_eq,
    List.mem_map, List.mem_filter, List.contains_iff_exists_mem_beq, beq_iff_eq,
    Bool.and_eq_true]
  constructor
  · rintro ⟨a, ⟨hmem, ⟨hd, hdt⟩, hact⟩, ht⟩
    exact ⟨a, hmem, ⟨⟨hd, hdt⟩, ht⟩, hact⟩
  · rintro ⟨a, hmem, ⟨⟨hd, hdt⟩, ht⟩, hact⟩
    exact ⟨a, ⟨hmem, ⟨hd, hdt⟩, hact⟩, ht⟩

theorem saveNewSchedule_ok {s : DoctorSchedule} {db db2 : DB}
    (h : saveNewSchedule s db = .ok db2) :
    db2 = { db with schedules := db.schedules ++ [s] } := by
  unfold saveNewSchedule at h
  split at h
  · exact absurd h (by simp)
  · split at h
    · exact absurd h (by simp)
    · injection h with h2; exact h2.symm

theorem createSchedule_ok {newId : String} {p : Principal} {r : ScheduleRequest}
    {db : DB} {sched : DoctorSchedule} {db1 : DB}
    (h : createSchedule newId p r db = (.ok sched, db1)) :
    p.role = "doctor" ∧ findSchedule db p.id r.date = none ∧
    sched = newSchedule newId p r ∧
    db1 = { db with schedules := db.schedules ++ [sched] } := by
  unfold createSchedule at h
  split at h
  · injection h with h1 h2; exact absurd h1 (by simp)
  · rename_i hrole
    split at h
    · injection h with h1 h2; exact absurd h1 (by simp)
    · rename_i hnone
      split at h
      · injection h with h1 h2; exact absurd h1 (by simp)
      · rename_i db3 hsave
        injection h with h1 h2
        injection h1 with h3
        subst h3; subst h2
        exact ⟨by simpa using hrole, hnone, rfl, saveNewSchedule_ok hsave⟩

end MedApp

/-! ### Claim theorems -/

namespace MedApp

/-- C1 (amended): under sequential execution, creating an appointment and
cancelling one (via the DELETE route or via an update whose requested status
is `cancelled` or `completed`) preserve the exclusivity invariant; the
update handler with an activating requested status is exactly the operation
that does not preserve it. -/
theorem exclusivity_preserved_by_create_cancel_and_deactivating_updates
    (db : DB) (hx : exclusivity db) :
    (∀ newId p r, exclusivity (createAppointment newId p r db).2) ∧
    (∀ p aid, exclusivity (deleteAppointment p aid db).2) ∧
    (∀ p aid r, r.status = "cancelled" ∨ r.status = "completed" →
      exclusivity (updateAppointment p aid r db).2) :=
  ⟨fun newId p r => createAppointment_preserves_exclusivity newId p r db hx,
   fun p aid => deleteAppointment_preserves_exclusivity p aid db hx,
   fun p aid r hst =>
     updateAppointment_deactivating_preserves_exclusivity p aid r db hx hst⟩

/-- C1 witness: the preservation theorem applied to the empty-appointment
store and a concrete booking. -/
theorem exclusivity_preserved_witness :
    exclusivity (createAppointment "a1" exPatient exReq exDb0).2 :=
  (exclusivity_preserved_by_create_cancel_and_deactivating_updates exDb0
    (fun d dt t => by simp [activeCountAt, exDb0])).1 "a1" exPatient exReq

/-- C1 counterexample: book, cancel, rebook, then the doctor flips the
cancelled appointment back to confirmed through the update handler — every
step succeeds sequentially and the final store holds two active appointments
on the same `(doctorId, date, time)`, so updateStatus does not preserve the
exclusivity invariant. -/
theorem exclusivity_broken_by_status_update :
    (createAppointment "a1" exPatient exReq exDb0).1 =
      .ok (newAppointment "a1" exPatient exReq) ∧
    (deleteAppointment exPatient "a1" exDb1).1 = .ok () ∧
    (createAppointment "a2" exPatient exReq exDb2).1 =
      .ok (newAppointment "a2" exPatient exReq) ∧
    (updateAppointment exDoctor "a1"
        { status := "confirmed", doctor_notes := none } exDb3).1 =
      .ok { newAppointment "a1" exPatient exReq with status := "confirmed" } ∧
    activeCountAt exDb4 "doc1" "2025-06-01" "09:00" = 2 ∧
    ¬ exclusivity exDb4 :=
  ⟨rfl, rfl, rfl, rfl, rfl,
   fun h => absurd (h "doc1" "2025-06-01" "09:00") (by decide)⟩

/-- C2 (amended): the update handler performs no transition-table
validation: for every stored appointment, whatever its current status
(terminal states included), and every requested status in the schema enum,
a caller passing the ownership gates (an owning doctor; an owning patient
requesting `cancelled`; any other role unconditionally) succeeds and the
requested status is stored. -/
theorem updateStatus_no_transition_check
    (db : DB) (p : Principal) (aid : String) (r : UpdateRequest) (a : Appointment)
    (hfind : findAppointment db aid = some a)
    (hreq : requiredOk a = true)
    (henum : statusEnum.contains r.status = true)
    (hdoc : p.role = "doctor" → a.doctor_id = p.id)
    (hpat : p.role = "patient" → a.patient_id = p.id ∧ r.status = "cancelled") :
    ∃ a2, (updateAppointment p aid r db).1 = .ok a2 ∧
      a2.status = r.status ∧ a2.id = a.id := by
  refine ⟨applyUpdate a r, ?_, rfl, rfl⟩
  rw [updateAppointment_authorized_ok db p aid r a hfind hreq henum hdoc hpat]

/-- C2 witness: the owning doctor moves a completed (terminal) appointment
back to pending. -/
theorem updateStatus_no_transition_check_witness :
    ∃ a2, (updateAppointment exDoctor "c1"
        { status := "pending", doctor_notes := none } exDbCompleted).1 = .ok a2 ∧
      a2.status = "pending" ∧ a2.id = "c1" :=
  updateStatus_no_transition_check exDbCompleted exDoctor "c1"
    { status := "pending", doctor_notes := none } exCompletedApt
    rfl rfl rfl (fun _ => rfl) (fun h => absurd h (by decide))

/-- C2 counterexample: `(confirmed, cancelled, doctor)` is not an allowed
edge of the transition table, yet the owning doctor's update succeeds and
the stored status changes to cancelled. -/
theorem doctor_cancel_confirmed_succeeds :
    exConfirmedApt.status = "confirmed" ∧
    (updateAppointment exDoctor "b1"
        { status := "cancelled", doctor_notes := none } exDbConfirmed).1 =
      .ok { exConfirmedApt with status := "cancelled" } ∧
    findAppointment (updateAppointment exDoctor "b1"
        { status := "cancelled", doctor_notes := none } exDbConfirmed).2 "b1" =
      some { exConfirmedApt with status := "cancelled" } :=
  ⟨rfl, rfl, rfl⟩

/-- C3 (amended): under sequential execution the second create for the same
slot fails with the occupied-slot Conflict and leaves the store unchanged;
the schema has no uniqueness constraint over the slot tuple, so this does
not extend to interleaved executions. -/
theorem create_sequential_mutual_exclusion
    {newId1 : String} {p1 : Principal} {r : CreateRequest} {db : DB}
    {a1 : Appointment} {db1 : DB} (newId2 : String) (p2 : Principal)
    (h1 : createAppointment newId1 p1 r db = (.ok a1, db1))
    (hrole2 : p2.role = "patient") :
    createAppointment newId2 p2 r db1 =
      (.error (.conflict "Time slot already booked"), db1) := by
  obtain ⟨hchk, ha1, hdb1⟩ := createAppointment_ok h1
  obtain ⟨hrole1, hdocu, ⟨sched, hsched, hslot⟩, hact⟩ := createCheck_eq_none hchk
  obtain ⟨u, hu⟩ := Option.ne_none_iff_exists.mp hdocu
  subst hdb1
  subst ha1
  have hdocu1 : findDoctorUser
      { db with appointments := db.appointments ++ [newAppointment newId1 p1 r] }
      r.doctor_id = some u := hu.symm
  have hsched1 : findSchedule
      { db with appointments := db.appointments ++ [newAppointment newId1 p1 r] }
      r.doctor_id r.appointment_date = some sched := hsched
  have hact0 : db.appointments.find?
      (fun a => occupies a r.doctor_id r.appointment_date r.appointment_time) = none := hact
  have hact1 : findActiveAt
      { db with appointments := db.appointments ++ [newAppointment newId1 p1 r] }
      r.doctor_id r.appointment_date r.appointment_time =
      some (newAppointment newId1 p1 r) := by
    show (db.appointments ++ [newAppointment newId1 p1 r]).find?
      (fun a => occupies a r.doctor_id r.appointment_date r.appointment_time) = _
    rw [List.find?_append, hact0, Option.none_or]
    simp [List.find?, newAppointment, occupies, isActive]
  have hchk2 : createCheck p2 r
      { db with appointments := db.appointments ++ [newAppointment newId1 p1 r] } =
      some (.conflict "Time slot already booked") := by
    unfold createCheck
    rw [hrole2]
    simp only [bne_self_eq_false, Bool.false_eq_true, if_false]
    rw [hdocu1]
    rw [hsched1]
    simp only [hslot, Bool.not_true, Bool.false_eq_true, if_false]
    rw [hact1]
  unfold createAppointment
  rw [hchk2]

/-- C3 witness: the sequential-exclusion theorem at a concrete store. -/
theorem create_sequential_mutual_exclusion_witness :
    createAppointment "a2" exPatient2 exReq exDb1 =
      (.error (.conflict "Time slot already booked"), exDb1) := by
  have h1 : createAppointment "a1" exPatient exReq exDb0 =
      (.ok (newAppointment "a1" exPatient exReq), exDb1) := rfl
  exact create_sequential_mutual_exclusion "a2" exPatient2 h1 rfl

/-- C3 counterexample: with the interleaving check-check-insert-insert
(every `await` in the handler is an atomicity boundary), both creates for
the same slot pass the read-based check on the same snapshot and both
inserts succeed — the store only rejects duplicate `id`s — double-booking
the slot. -/
theorem concurrent_create_double_books :
    createCheck exPatient exReq exDb0 = none ∧
    createCheck exPatient2 exReq exDb0 = none ∧
    (createInsert "a1" exPatient exReq exDb0).1 =
      .ok (newAppointment "a1" exPatient exReq) ∧
    (createInsert "a2" exPatient2 exReq raceDb1).1 =
      .ok (newAppointment "a2" exPatient2 exReq) ∧
    activeCountAt raceDb2 "doc1" "2025-06-01" "09:00" = 2 ∧
    ¬ exclusivity raceDb2 :=
  ⟨rfl, rfl, rfl, rfl, rfl,
   fun h => absurd (h "doc1" "2025-06-01" "09:00") (by decide)⟩

/-- C4 (amended): the update handler does not require `doctorNotes` for the
transition to completed: the owning doctor's update of a confirmed
appointment to completed succeeds with or without notes; absent (or empty)
notes leave the stored `doctorNotes` unchanged, and non-empty notes are
stored verbatim. -/
theorem completion_without_notes_allowed
    (db : DB) (p : Principal) (aid : String) (a : Appointment) (dn : Option String)
    (hfind : findAppointment db aid = some a) (_hconf : a.status = "confirmed")
    (hrole : p.role = "doctor") (hown : a.doctor_id = p.id)
    (hreq : requiredOk a = true) :
    ∃ a2, (updateAppointment p aid
        { status := "completed", doctor_notes := dn } db).1 = .ok a2 ∧
      a2.status = "completed" ∧
      (dn = none → a2.doctor_notes = a.doctor_notes) ∧
      (∀ s, dn = some s → s ≠ "" → a2.doctor_notes = some s) := by
  refine ⟨applyUpdate a { status := "completed", doctor_notes := dn }, ?_, rfl, ?_, ?_⟩
  · rw [updateAppointment_authorized_ok db p aid
      { status := "completed", doctor_notes := dn } a hfind hreq rfl
      (fun _ => hown) (fun hp => absurd (hrole.symm.trans hp) (by decide))]
  · intro hdn
    simp [applyUpdate, orNull, hdn]
  · intro s hdn hs
    simp [applyUpdate, orNull, hdn, hs]

/-- C4 witness: completing with notes "healthy" stores them verbatim. -/
theorem completion_without_notes_allowed_witness :
    ∃ a2, (updateAppointment exDoctor "b1"
        { status := "completed", doctor_notes := some "healthy" } exDbConfirmed).1 =
      .ok a2 ∧
      a2.status = "completed" ∧
      (some "healthy" = none → a2.doctor_notes = exConfirmedApt.doctor_notes) ∧
      (∀ s, some "healthy" = some s → s ≠ "" → a2.doctor_notes = some s) :=
  completion_without_notes_allowed exDbConfirmed exDoctor "b1" exConfirmedApt
    (some "healthy") rfl rfl rfl rfl rfl

/-- C4 counterexample: completing the confirmed appointment with no
`doctorNotes` at all succeeds — no `ValidationError` — and the stored
record is completed with `doctorNotes` still absent. -/
theorem complete_without_notes_succeeds :
    (updateAppointment exDoctor "b1"
        { status := "completed", doctor_notes := none } exDbConfirmed).1 =
      .ok { exConfirmedApt with status := "completed" } ∧
    findAppointment (updateAppointment exDoctor "b1"
        { status := "completed", doctor_notes := none } exDbConfirmed).2 "b1" =
      some { exConfirmedApt with status := "completed" } ∧
    ({ exConfirmedApt with status := "completed" } : Appointment).doctor_notes = none :=
  ⟨rfl, rfl, rfl⟩

end MedApp

namespace MedApp

/-- C5 (amended): create by a patient fails `NotFound` when the doctor does
not resolve, `Conflict` when no availability exists for the date, when the
time is not a published available slot, or when an active appointment
occupies the slot — each time leaving the store unchanged; otherwise,
provided the document passes save-time validation (in particular the reason
is non-empty) and the generated id is fresh, a pending Appointment carrying
the given fields is appended to the store. -/
theorem create_postconditions
    (newId : String) (p : Principal) (r : CreateRequest) (db : DB)
    (hrole : p.role = "patient") :
    (findDoctorUser db r.doctor_id = none →
      createAppointment newId p r db = (.error (.notFound "Doctor not found"), db)) ∧
    (∀ u, findDoctorUser db r.doctor_id = some u →
      findSchedule db r.doctor_id r.appointment_date = none →
      createAppointment newId p r db =
        (.error (.conflict "Doctor not available on this date"), db)) ∧
    (∀ u sched, findDoctorUser db r.doctor_id = some u →
      findSchedule db r.doctor_id r.appointment_date = some sched →
      slotAvailable sched r.appointment_time = false →
      createAppointment newId p r db =
        (.error (.conflict "Time slot not available"), db)) ∧
    (∀ u sched a0, findDoctorUser db r.doctor_id = some u →
      findSchedule db r.doctor_id r.appointment_date = some sched →
      slotAvailable sched r.appointment_time = true →
      findActiveAt db r.doctor_id r.appointment_date r.appointment_time = some a0 →
      createAppointment newId p r db =
        (.error (.conflict "Time slot already booked"), db)) ∧
    (createCheck p r db = none →
      appointmentValid (newAppointment newId p r) = true →
      db.appointments.any (fun x => x.id == newId) = false →
      ∃ a, createAppointment newId p r db =
          (.ok a, { db with appointments := db.appointments ++ [a] }) ∧
        a.status = "pending" ∧ a.patient_id = p.id ∧ a.doctor_id = r.doctor_id ∧
        a.appointment_date = r.appointment_date ∧
        a.appointment_time = r.appointment_time ∧ a.reason = r.reason) := by
  have hbne : (p.role != "patient") = false := by simp [hrole]
  refine ⟨?_, ?_, ?_, ?_, ?_⟩
  · intro hdoc
    have hchk : createCheck p r db = some (.notFound "Doctor not found") := by
      unfold createCheck
      rw [hbne]
      simp only [Bool.false_eq_true, if_false]
      rw [hdoc]
    unfold createAppointment
    rw [hchk]
  · intro u hdoc hsched
    have hchk : createCheck p r db =
        some (.conflict "Doctor not available on this date") := by
      unfold createCheck
      rw [hbne]
      simp only [Bool.false_eq_true, if_false]
      rw [hdoc, hsched]
    unfold createAppointment
    rw [hchk]
  · intro u sched hdoc hsched hslot
    have hchk : createCheck p r db = some (.conflict "Time slot not available") := by
      unfold createCheck
      rw [hbne]
      simp only [Bool.false_eq_true, if_false]
      rw [hdoc, hsched]
      simp [hslot]
    unfold createAppointment
    rw [hchk]
  · intro u sched a0 hdoc hsched hslot hact
    have hchk : createCheck p r db = some (.conflict "Time slot already booked") := by
      unfold createCheck
      rw [hbne]
      simp only [Bool.false_eq_true, if_false]
      rw [hdoc, hsched]
      simp only [hslot, Bool.not_true, Bool.false_eq_true, if_false]
      rw [hact]
    unfold createAppointment
    rw [hchk]
  · intro hchk hvalid hfresh
    refine ⟨newAppointment newId p r, ?_, rfl, rfl, rfl, rfl, rfl, rfl⟩
    unfold createAppointment
    rw [hchk]
    unfold createInsert saveNewAppointment
    rw [hvalid]
    simp only [Bool.not_true, Bool.false_eq_true, if_false]
    have hfresh2 : (db.appointments.any
        fun x => x.id == (newAppointment newId p r).id) = false := hfresh
    rw [hfresh2]
    simp

/-- C5 witness: the success branch at a concrete free slot. -/
theorem create_postconditions_witness :
    ∃ a, createAppointment "a1" exPatient exReq exDb0 =
        (.ok a, { exDb0 with appointments := exDb0.appointments ++ [a] }) ∧
      a.status = "pending" ∧ a.patient_id = "pat1" ∧ a.doctor_id = "doc1" ∧
      a.appointment_date = "2025-06-01" ∧ a.appointment_time = "09:00" ∧
      a.reason = "checkup" :=
  (create_postconditions "a1" exPatient exReq exDb0 rfl).2.2.2.2 rfl rfl rfl

/-- C5 counterexample: with the doctor resolved, availability published, the
slot free and unoccupied, a create whose reason is empty persists nothing —
the save fails validation — contradicting the claim's unconditional
otherwise-clause. -/
theorem create_empty_reason_not_persisted :
    findDoctorUser exDb0 "doc1" = some exUser ∧
    findSchedule exDb0 "doc1" "2025-06-01" = some exSched ∧
    slotAvailable exSched "09:00" = true ∧
    findActiveAt exDb0 "doc1" "2025-06-01" "09:00" = none ∧
    createAppointment "a9" exPatient exReqEmptyReason exDb0 =
      (.error (.validationError "Appointment validation failed"), exDb0) :=
  ⟨rfl, rfl, rfl, rfl, rfl⟩

/-- C6: free slots are exactly the published slots of the date whose
`is_available` flag is set and whose start time no active appointment
occupies; an unpublished date yields the empty slot list, not an error. -/
theorem freeSlots_characterization (db : DB) (doctorId date : String) :
    (findSchedule db doctorId date = none →
      availableSlots db doctorId date = { date := date, slots := [] }) ∧
    (∀ sched, findSchedule db doctorId date = some sched →
      (availableSlots db doctorId date).slots =
        sched.time_slots.filter (fun slot =>
          slot.is_available &&
          !(db.appointments.any (fun a => occupies a doctorId date slot.start_time)))) := by
  constructor
  · intro h
    simp [availableSlots, h]
  · intro sched h
    simp only [availableSlots, h]
    exact List.filter_congr (fun slot _ => by rw [bookedTimes_contains_eq])

/-- C6 witness: published slots 08:00, 08:30, 09:00 with a confirmed
appointment at 08:30 yield exactly [08:00, 09:00]. -/
theorem freeSlots_characterization_witness :
    (availableSlots c6Db "doc1" "2025-07-01").slots = [c6Slot1, c6Slot3] := by
  rw [(freeSlots_characterization c6Db "doc1" "2025-07-01").2 c6Sched rfl]
  rfl

/-- C7: after a successful publish, publishing again for the same doctor
and date fails with the duplicate-schedule Conflict, leaves the store
unchanged, and the first publish's slots are still what is stored. -/
theorem publish_twice_conflict
    {newId1 : String} {p : Principal} {r : ScheduleRequest} {db : DB}
    {sched : DoctorSchedule} {db1 : DB} (newId2 : String) (r2 : ScheduleRequest)
    (h1 : createSchedule newId1 p r db = (.ok sched, db1))
    (hdate : r2.date = r.date) :
    createSchedule newId2 p r2 db1 =
      (.error (.conflict "Schedule for this date already exists"), db1) ∧
    findSchedule db1 p.id r.date = some sched ∧
    sched.time_slots = r.time_slots := by
  obtain ⟨hrole, hnone, hsched, hdb1⟩ := createSchedule_ok h1
  have hfind : findSchedule db1 p.id r.date = some sched := by
    subst hdb1
    have hnone2 : db.schedules.find?
        (fun s => s.doctor_id == p.id && s.date == r.date) = none := hnone
    show (db.schedules ++ [sched]).find?
      (fun s => s.doctor_id == p.id && s.date == r.date) = some sched
    rw [List.find?_append, hnone2, Option.none_or]
    subst hsched
    simp [List.find?, newSchedule]
  refine ⟨?_, hfind, by subst hsched; rfl⟩
  unfold createSchedule
  rw [hrole]
  simp only [bne_self_eq_false, Bool.false_eq_true, if_false]
  rw [hdate, hfind]

/-- C7 witness: the publish-twice theorem at a concrete store. -/
theorem publish_twice_conflict_witness :
    createSchedule "sch2" exDoctor exSchedReq pubDb1 =
      (.error (.conflict "Schedule for this date already exists"), pubDb1) ∧
    findSchedule pubDb1 "doc1" "2025-06-01" =
      some (newSchedule "sch1" exDoctor exSchedReq) ∧
    (newSchedule "sch1" exDoctor exSchedReq).time_slots = [exSlot] := by
  have h1 : createSchedule "sch1" exDoctor exSchedReq pubDb0 =
      (.ok (newSchedule "sch1" exDoctor exSchedReq), pubDb1) := rfl
  exact publish_twice_conflict "sch2" exSchedReq h1 rfl

/-- C8: every successful update leaves `id`, `patientId`, `doctorId`,
`date`, `time`, `reason` (and `notes`) of the record unchanged; the store
differs only in that one record. -/
theorem update_immutable_frame
    {p : Principal} {aid : String} {r : UpdateRequest} {db : DB}
    {a2 : Appointment} {db2 : DB}
    (h : updateAppointment p aid r db = (.ok a2, db2)) :
    ∃ a, findAppointment db aid = some a ∧
      a2.id = a.id ∧ a2.patient_id = a.patient_id ∧ a2.doctor_id = a.doctor_id ∧
      a2.appointment_date = a.appointment_date ∧
      a2.appointment_time = a.appointment_time ∧
      a2.reason = a.reason ∧ a2.notes = a.notes ∧
      db2 = { db with appointments := replaceById db.appointments a2 } := by
  unfold updateAppointment at h
  split at h
  · injection h with h1 h2; exact absurd h1 (by simp)
  · rename_i a hfind
    split at h
    · injection h with h1 h2; exact absurd h1 (by simp)
    · split at h
      · injection h with h1 h2; exact absurd h1 (by simp)
      · split at h
        · injection h with h1 h2; exact absurd h1 (by simp)
        · split at h
          · injection h with h1 h2; exact absurd h1 (by simp)
          · rename_i db3 hsave
            injection h with h1 h2
            injection h1 with h3
            subst h3; subst h2
            exact ⟨a, hfind, rfl, rfl, rfl, rfl, rfl, rfl, rfl,
              (saveUpdatedAppointment_ok hsave).2⟩

/-- C8 witness: the frame theorem at a concrete successful update. -/
theorem update_immutable_frame_witness :
    ∃ a, findAppointment exDbConfirmed "b1" = some a ∧
      "b1" = a.id ∧ "pat1" = a.patient_id ∧ "doc1" = a.doctor_id ∧
      "2025-06-01" = a.appointment_date ∧ "09:00" = a.appointment_time ∧
      "checkup" = a.reason ∧ (none : Option String) = a.notes ∧
      (updateAppointment exDoctor "b1"
          { status := "pending", doctor_notes := none } exDbConfirmed).2 =
        { exDbConfirmed with
            appointments := replaceById exDbConfirmed.appointments
              { exConfirmedApt with status := "pending" } } := by
  have h : updateAppointment exDoctor "b1"
      { status := "pending", doctor_notes := none } exDbConfirmed =
      (.ok { exConfirmedApt with status := "pending" },
       { exDbConfirmed with
           appointments := replaceById exDbConfirmed.appointments
             { exConfirmedApt with status := "pending" } }) := rfl
  exact update_immutable_frame h

/-- C9: a create by a patient for a free published slot whose reason is the
empty string fails with the Mongoose ValidationError and persists nothing. -/
theorem empty_reason_validation_error
    (newId : String) (p : Principal) (r : CreateRequest) (db : DB)
    (hcheck : createCheck p r db = none) (hreason : r.reason = "") :
    createAppointment newId p r db =
      (.error (.validationError "Appointment validation failed"), db) := by
  unfold createAppointment
  rw [hcheck]
  unfold createInsert saveNewAppointment
  have hv : appointmentValid (newAppointment newId p r) = false := by
    simp [appointmentValid, requiredOk, newAppointment, hreason]
  rw [hv]
  simp

/-- C9 witness: the empty-reason theorem at a concrete free slot. -/
theorem empty_reason_validation_error_witness :
    createAppointment "a9" exPatient exReqEmptyReason exDb0 =
      (.error (.validationError "Appointment validation failed"), exDb0) :=
  empty_reason_validation_error "a9" exPatient exReqEmptyReason exDb0 rfl rfl

/-- C10: a principal whose role is neither doctor nor patient is subject to
no ownership, role or transition check in the update handler: on any stored
appointment, any requested status in the schema enum is written and the
call succeeds. -/
theorem admin_unrestricted_update
    (db : DB) (p : Principal) (aid : String) (r : UpdateRequest) (a : Appointment)
    (hd : p.role ≠ "doctor") (hp : p.role ≠ "patient")
    (hfind : findAppointment db aid = some a)
    (hreq : requiredOk a = true)
    (henum : statusEnum.contains r.status = true) :
    updateAppointment p aid r db =
      (.ok (applyUpdate a r),
        { db with appointments := replaceById db.appointments (applyUpdate a r) }) ∧
    (applyUpdate a r).status = r.status :=
  ⟨updateAppointment_authorized_ok db p aid r a hfind hreq henum
      (fun h => absurd h hd) (fun h => absurd h hp), rfl⟩

/-- C10 witness: an admin who owns nothing moves a confirmed appointment of
another doctor and patient to pending. -/
theorem admin_unrestricted_update_witness :
    updateAppointment exAdmin "b1"
        { status := "pending", doctor_notes := none } exDbConfirmed =
      (.ok (applyUpdate exConfirmedApt { status := "pending", doctor_notes := none }),
        { exDbConfirmed with
            appointments := replaceById exDbConfirmed.appointments
              (applyUpdate exConfirmedApt { status := "pending", doctor_notes := none }) }) ∧
    (applyUpdate exConfirmedApt
      { status := "pending", doctor_notes := none }).status = "pending" :=
  admin_unrestricted_update exDbConfirmed exAdmin "b1"
    { status := "pending", doctor_notes := none } exConfirmedApt
    (by decide) (by decide) rfl rfl rfl

end MedApp
